import Mathlib

/-!
Verification of the dispatch-test benchmark harness (`src/main.rs`).

The program is a benchmark-case generator: for a configuration
(`num_types`, `num_fns`, `num_calls`) it emits two Rust programs (static
and dynamic dispatch), compiles them with an external `rustc`, runs them,
and sweeps a parameter range.  We embed:

* the data model (`CaseConfig`, `MultiCaseConfig`, `GenOpts`,
  `CompileOpts`);
* the source synthesizer `gen_case` as a list of emitted chunks, one per
  `writeln!` call in the Rust code, plus a `render` function holding the
  literal template text (braces in generated Rust text are written with
  hex escapes);
* the artifact path scheme `gen_paths` (Rust `{:04}` zero padding is
  `pad4`);
* the sweep expansion `ranges` / `sweep_configs` (Rust
  `(1..=n+1).step_by(s)` is `rangeStepBy 1 (n+1) s` where
  `List.range' lo k s` is the arithmetic progression);
* the per-case drivers `gen_one_case`, `compile_one_case`,
  `run_one_case`, with spawned child processes recorded as a `Proc`
  trace and an oracle `world : Proc → Bool` deciding each child's exit
  status (Rust `assert!` failure in `verify_case` is modelled as
  `CaseError.configError`, `bail!` as the other error kinds);
* the sweep driver `run_all_for` (`runAllTrace` additionally records
  which configuration points were attempted; the Rust loop body is
  `test(config)?`, so an `Err` aborts the loop).
-/

/-- One measurement point, mirroring Rust `struct CaseConfig`
(`outdir: PathBuf` is modelled as a `String`). -/
structure CaseConfig where
  outdir : String
  num_types : Nat
  num_fns : Nat
  num_calls : Nat
deriving DecidableEq

/-- A sweep description, mirroring Rust `struct MultiCaseConfig`. -/
structure MultiCaseConfig where
  outdir : String
  num_types : Nat
  num_fns : Nat
  num_calls : Nat
  step_types : Nat
  step_fns : Nat
  step_calls : Nat
deriving DecidableEq

/-- Mirrors Rust `struct CompileOpts`. -/
structure CompileOpts where
  asm : Bool
  opt_level : Nat
deriving DecidableEq

/-- Mirrors Rust `struct GenOpts`. -/
structure GenOpts where
  no_inline : Bool
deriving DecidableEq

/-- The two code templates (`gen_static` / `gen_dynamic` in the Rust
code choose `write_fn_static` / `write_fn_dynamic`). -/
inductive Strategy where
  | static
  | dynamic
deriving DecidableEq

/-- Rust `fn verify_case`: `assert!(num_types > 0)` and likewise for
`num_fns`, `num_calls`.  `true` means all three asserts pass. -/
def verify_case (c : CaseConfig) : Bool :=
  decide (0 < c.num_types) && decide (0 < c.num_fns) && decide (0 < c.num_calls)

/-- Rust `const TEST_LOOPS: usize = 100_000`. -/
def TEST_LOOPS : Nat := 100000

/-- Rust `static HEADER`, byte for byte (the literal opens and closes
with a newline). -/
def HEADER : String :=
  "\n#![feature(test)]\nextern crate test;\n\nuse test::black_box;\n\ntrait Io \x7b fn do_io_m(&self); \x7d\n"

/-- Rust `fn gen_type`: the padded tuple-struct field list for type
`num` out of `num_types`. -/
def gen_type (num num_types : Nat) : String :=
  "(" ++ ("[u8; " ++ Nat.repr num ++ "], ") ++ ("u16, ")
    ++ ("[u8; " ++ Nat.repr (num_types - num) ++ "], ") ++ (")")

/-- Rust `fn gen_ctor`: the zero-filled constructor matching
`gen_type`. -/
def gen_ctor (num num_types : Nat) : String :=
  "(" ++ ("[0_u8; " ++ Nat.repr num ++ "], ") ++ ("0_u16, ")
    ++ ("[0_u8; " ++ Nat.repr (num_types - num) ++ "], ") ++ (")")

/-- The `inline_str` binding in Rust `gen_case`. -/
def inlineStr (o : GenOpts) : String :=
  if o.no_inline then "#[inline(never)]" else ""

/-- The part of a wrapper function shared by both strategies up to the
signature: `"\n{inlining}\nfn do_io_f{num}"` in both Rust templates. -/
def fnHead (inl : String) (num : Nat) : String :=
  "\n" ++ inl ++ ("\nfn do_io_f" ++ Nat.repr num)

/-- The part of a wrapper function shared by both strategies after the
signature: body plus closing brace, from both Rust templates. -/
def fnBody (num : Nat) : String :=
  " \x7b\n    v.do_io_m();\n    black_box(&" ++ Nat.repr num ++ ");\n\x7d\n"

/-- One `writeln!` performed by Rust `gen_case`, with the parameters the
Rust code substitutes into the corresponding format template. -/
inductive Chunk where
  /-- `"// types = {}, calls = {}"` -/
  | comment (num_types num_calls : Nat)
  /-- a bare `writeln!(file)` -/
  | blank
  /-- `writeln!(file, "{}", HEADER)` -/
  | header
  /-- one iteration of the type loop: `type_template!` -/
  | typeDecl (num num_types : Nat) (inlining : String)
  /-- one iteration of the function loop: `fn_static_template!` or
  `fn_dynamic_template!` depending on the strategy -/
  | fnDecl (s : Strategy) (num : Nat) (inlining : String)
  /-- `"fn main() {"` -/
  | mainOpen
  /-- one static instance line inside `main` -/
  | staticDecl (num num_types : Nat)
  /-- `"    for _ in 0..{TEST_LOOPS} {"` -/
  | loopOpen
  /-- one call line of the timing loop body -/
  | callLine (fn_num type_num : Nat)
  /-- `"    }"` closing the timing loop -/
  | loopClose
  /-- `"}"` closing `main` -/
  | mainClose
deriving DecidableEq

/-- `writeln!` appends a newline to the formatted text. -/
def wl (s : String) : String := s ++ "\n"

/-- The text of one chunk: a transliteration of the Rust format
templates (`type_template!`, `fn_static_template!`,
`fn_dynamic_template!` and the inline format strings of `gen_case`). -/
def render : Chunk → String
  | Chunk.comment t k =>
      wl ("// types = " ++ Nat.repr t ++ (", calls = " ++ Nat.repr k))
  | Chunk.blank => "\n"
  | Chunk.header => wl HEADER
  | Chunk.typeDecl t T inl =>
      wl ("\nstruct T" ++ Nat.repr t ++ ("(" ++ gen_type t T ++ (");\nimpl Io for T" ++ Nat.repr t
        ++ (" \x7b " ++ inl ++ (" fn do_io_m(&self) \x7b black_box(self); \x7d \x7d\n")))))
  | Chunk.fnDecl Strategy.static num inl =>
      wl (fnHead inl num ++ ("<T: Io>(v: &T)") ++ fnBody num)
  | Chunk.fnDecl Strategy.dynamic num inl =>
      wl (fnHead inl num ++ ("(v: &dyn Io)") ++ fnBody num)
  | Chunk.mainOpen => wl ("fn main() \x7b")
  | Chunk.staticDecl t T =>
      wl ("    static V" ++ Nat.repr t ++ (": &T" ++ Nat.repr t
        ++ (" = &T" ++ Nat.repr t ++ ("(" ++ gen_ctor t T ++ (");")))))
  | Chunk.loopOpen => wl ("    for _ in 0.." ++ Nat.repr TEST_LOOPS ++ (" \x7b"))
  | Chunk.callLine f t =>
      wl ("        do_io_f" ++ Nat.repr f ++ ("(V" ++ Nat.repr t ++ (");")))
  | Chunk.loopClose => wl ("    \x7d")
  | Chunk.mainClose => wl ("\x7d")

/-- The sequence of `writeln!` calls performed by Rust `gen_case` for
one configuration and strategy, in program order: comment line, blank,
header, the type loop, the function loop, `main`'s opening, the static
instance loop, the timing loop opening, the nested
function/type/call-count loop (with the blank line emitted after each
function group), and the two closing braces. -/
def gen_case_chunks (c : CaseConfig) (s : Strategy) (o : GenOpts) : List Chunk :=
  [Chunk.comment c.num_types c.num_calls, Chunk.blank, Chunk.header]
  ++ (List.range c.num_types).map (fun t => Chunk.typeDecl t c.num_types (inlineStr o))
  ++ (List.range c.num_fns).map (fun f => Chunk.fnDecl s f (inlineStr o))
  ++ [Chunk.blank, Chunk.mainOpen]
  ++ (List.range c.num_types).map (fun t => Chunk.staticDecl t c.num_types)
  ++ [Chunk.blank, Chunk.loopOpen]
  ++ (List.range c.num_fns).flatMap (fun f =>
       (List.range c.num_types).flatMap (fun t =>
         (List.range c.num_calls).map (fun _ => Chunk.callLine f t))
       ++ [Chunk.blank])
  ++ [Chunk.loopClose, Chunk.mainClose]

/-- The full source text written by Rust `gen_case`. -/
def gen_case (c : CaseConfig) (s : Strategy) (o : GenOpts) : String :=
  String.join ((gen_case_chunks c s o).map render)

/-- Chunk discriminator: is this chunk a value-type declaration (one
`struct T{i}` plus its `impl Io`)? -/
def Chunk.isTypeDecl : Chunk → Bool
  | Chunk.typeDecl _ _ _ => true
  | _ => false

/-- Chunk discriminator: is this chunk a wrapper-function
declaration? -/
def Chunk.isFnDecl : Chunk → Bool
  | Chunk.fnDecl _ _ _ => true
  | _ => false

/-- The (function index, type index) of a timing-loop call line. -/
def Chunk.callIdx : Chunk → Option (Nat × Nat)
  | Chunk.callLine f t => some (f, t)
  | _ => none

/-- The timing-loop call sequence according to the claimed default
order: function-major, then type-major, each pair repeated `num_calls`
times. -/
def call_seq (c : CaseConfig) : List (Nat × Nat) :=
  (List.range c.num_fns).flatMap (fun f =>
    (List.range c.num_types).flatMap (fun t =>
      (List.range c.num_calls).map (fun _ => (f, t))))

/-- Rust `{:04}` formatting of a `u32`: zero-pad the decimal digits on
the left to a minimum width of 4. -/
def pad4 (n : Nat) : String :=
  String.mk (List.replicate (4 - (Nat.repr n).data.length) '0' ++ (Nat.repr n).data)

/-- Rust `fn gen_paths`: the static and dynamic artifact paths for a
configuration and extension (`PathBuf::push` inserts a separator). -/
def gen_paths (c : CaseConfig) (ext : String) : String × String :=
  ( c.outdir ++ ("/" ++ ("static-" ++ pad4 c.num_types ++ ("-" ++ pad4 c.num_fns
      ++ ("-" ++ pad4 c.num_calls ++ ("." ++ ext))))),
    c.outdir ++ ("/" ++ ("dynamic-" ++ pad4 c.num_types ++ ("-" ++ pad4 c.num_fns
      ++ ("-" ++ pad4 c.num_calls ++ ("." ++ ext))))) )

/-- Rust `fn gen_src_paths`. -/
def gen_src_paths (c : CaseConfig) : String × String := gen_paths c ("rs")

/-- Rust `fn gen_bin_paths`. -/
def gen_bin_paths (c : CaseConfig) : String × String := gen_paths c ("bin")

/-- Rust `fn gen_asm_paths`. -/
def gen_asm_paths (c : CaseConfig) : String × String := gen_paths c ("S")

/-- The error taxonomy of the harness: the `verify_case` assertion
(`configError`), `bail!("rustc failed")` (`buildError`),
`bail!("running case failed")` (`runError`) and
`bail!("running nm failed")` (`toolingError`). -/
inductive CaseError where
  | configError
  | buildError
  | runError
  | toolingError
deriving DecidableEq

/-- A child process spawned by the harness: `rustc` invocations
(source, output, `--emit` kind, `-Copt-level`), the `nm` symbol lister,
and a built benchmark binary. -/
inductive Proc where
  | rustc (src out emit : String) (opt_level : Nat)
  | nm (bin : String)
  | bench (bin : String)
deriving DecidableEq

/-- Spawn a planned sequence of child processes in order, recording the
trace; a process on which the oracle `world` reports failure aborts the
sequence with that step's error (the Rust `?` on each `run_rustc` /
`count_symbols` / `run_case` call). -/
def run_plan (world : Proc → Bool) : List (Proc × CaseError) → List Proc × Except CaseError Unit
  | [] => ([], Except.ok ())
  | (p, e) :: rest =>
      if world p then
        ((run_plan world rest).1.cons p, (run_plan world rest).2)
      else ([p], Except.error e)

/-- Rust `fn gen_one_case`: `verify_case` first (an `assert!` failure
aborts before anything else), then generate the static and dynamic
sources. -/
def gen_one_case (c : CaseConfig) (o : GenOpts) : Except CaseError (String × String) :=
  if verify_case c then
    Except.ok (gen_case c Strategy.static o, gen_case c Strategy.dynamic o)
  else Except.error CaseError.configError

/-- Rust `fn compile_one_case`: `verify_case` first, then in order
`rustc --emit link` on the static and dynamic sources, the two
`rustc --emit asm` invocations when `--asm` was given, and `nm` on both
binaries; each child process result is `?`-propagated.  Returns the
trace of spawned processes together with the outcome. -/
def compile_one_case (c : CaseConfig) (opts : CompileOpts) (world : Proc → Bool) :
    List Proc × Except CaseError Unit :=
  if verify_case c then
    run_plan world
      ([(Proc.rustc (gen_src_paths c).1 (gen_bin_paths c).1 ("link") opts.opt_level,
          CaseError.buildError),
        (Proc.rustc (gen_src_paths c).2 (gen_bin_paths c).2 ("link") opts.opt_level,
          CaseError.buildError)]
       ++ (if opts.asm then
            [(Proc.rustc (gen_src_paths c).1 (gen_asm_paths c).1 ("asm") opts.opt_level,
               CaseError.buildError),
             (Proc.rustc (gen_src_paths c).2 (gen_asm_paths c).2 ("asm") opts.opt_level,
               CaseError.buildError)]
          else [])
       ++ [(Proc.nm (gen_bin_paths c).1, CaseError.toolingError),
           (Proc.nm (gen_bin_paths c).2, CaseError.toolingError)])
  else ([], Except.error CaseError.configError)

/-- Rust `fn run_one_case`: `verify_case` first, then run the static
and dynamic binaries in order, `?`-propagating a non-zero exit. -/
def run_one_case (c : CaseConfig) (world : Proc → Bool) :
    List Proc × Except CaseError Unit :=
  if verify_case c then
    run_plan world
      [(Proc.bench (gen_bin_paths c).1, CaseError.runError),
       (Proc.bench (gen_bin_paths c).2, CaseError.runError)]
  else ([], Except.error CaseError.configError)

/-- Rust inclusive range with step: `(lo..=hi).step_by(s)` for
`0 < s`. -/
def rangeStepBy (lo hi s : Nat) : List Nat :=
  if lo ≤ hi then List.range' lo ((hi - lo) / s + 1) s else []

/-- Rust `fn ranges`: each axis is either stepped — the Rust code uses
`(1..=n + 1).step_by(step)` — or pinned (`(n..=n).step_by(1)`). -/
def ranges (m : MultiCaseConfig) : List Nat × List Nat × List Nat :=
  ( if 0 < m.step_types then rangeStepBy 1 (m.num_types + 1) m.step_types
    else rangeStepBy m.num_types m.num_types 1,
    if 0 < m.step_fns then rangeStepBy 1 (m.num_fns + 1) m.step_fns
    else rangeStepBy m.num_fns m.num_fns 1,
    if 0 < m.step_calls then rangeStepBy 1 (m.num_calls + 1) m.step_calls
    else rangeStepBy m.num_calls m.num_calls 1 )

/-- The configuration points visited by Rust `fn run_all_for`, in its
nesting order: types outer, functions middle, calls inner. -/
def sweep_configs (m : MultiCaseConfig) : List CaseConfig :=
  (ranges m).1.flatMap (fun t =>
    (ranges m).2.1.flatMap (fun f =>
      (ranges m).2.2.map (fun k => CaseConfig.mk m.outdir t f k)))

/-- The loop body of Rust `fn run_all_for` over a list of configuration
points: `test(config)?` per point.  Records the points actually
attempted; an `Err` result aborts the iteration with that error. -/
def runAllTrace (test : CaseConfig → Except CaseError Unit) :
    List CaseConfig → List CaseConfig × Option CaseError
  | [] => ([], none)
  | cfg :: rest =>
      match test cfg with
      | Except.error e => ([cfg], some e)
      | Except.ok _ =>
          ((runAllTrace test rest).1.cons cfg, (runAllTrace test rest).2)

/-- Rust `fn run_all_for`: sweep the expanded configurations, with the
first per-point error propagated as the overall result. -/
def run_all_for (m : MultiCaseConfig) (test : CaseConfig → Except CaseError Unit) :
    Except CaseError Unit :=
  match (runAllTrace test (sweep_configs m)).2 with
  | some e => Except.error e
  | none => Except.ok ()

/-- A per-point operation that fails exactly on `num_types = 3`,
modelling an external compiler stub that fails only there. -/
def failsAtThree : CaseConfig → Except CaseError Unit :=
  fun cfg => if cfg.num_types = 3 then Except.error CaseError.buildError else Except.ok ()

/-- The ten decimal digit characters. -/
def digitList : List Char := ['0', '1', '2', '3', '4', '5', '6', '7', '8', '9']

theorem toDigitsCore_shift (b : Nat) : ∀ (fuel n : Nat) (ds : List Char),
    Nat.toDigitsCore b fuel n ds = Nat.toDigitsCore b fuel n [] ++ ds := by
  intro fuel
  induction fuel with
  | zero => intro n ds; rfl
  | succ f ih =>
    intro n ds
    simp only [Nat.toDigitsCore]
    by_cases h : n / b = 0
    · simp [h]
    · simp only [h, if_neg h]
      rw [ih (n / b) (Nat.digitChar (n % b) :: ds), ih (n / b) [Nat.digitChar (n % b)]]
      simp

theorem mem_toDigitsCore : ∀ (fuel n : Nat) (ds : List Char) (ch : Char),
    ch ∈ Nat.toDigitsCore 10 fuel n ds → ch ∈ ds ∨ ∃ m, m < 10 ∧ ch = Nat.digitChar m := by
  intro fuel
  induction fuel with
  | zero => intro n ds ch h; exact Or.inl h
  | succ f ih =>
    intro n ds ch h
    simp only [Nat.toDigitsCore] at h
    by_cases hb : n / 10 = 0
    · rw [if_pos hb] at h
      rcases List.mem_cons.mp h with h | h
      · exact Or.inr ⟨n % 10, Nat.mod_lt _ (by omega), h⟩
      · exact Or.inl h
    · rw [if_neg hb] at h
      rcases ih (n / 10) (Nat.digitChar (n % 10) :: ds) ch h with h | h
      · rcases List.mem_cons.mp h with h | h
        · exact Or.inr ⟨n % 10, Nat.mod_lt _ (by omega), h⟩
        · exact Or.inl h
      · exact Or.inr h

/-- Read a most-significant-first list of decimal digit characters back
as a number. -/
def parseDigits (l : List Char) : Nat :=
  l.foldl (fun a ch => a * 10 + (ch.toNat - 48)) 0

theorem digitChar_val : ∀ m, m < 10 → (Nat.digitChar m).toNat - 48 = m := by decide

theorem digitChar_mem : ∀ m, m < 10 → Nat.digitChar m ∈ digitList := by decide

theorem parse_core : ∀ (fuel n : Nat), n < 10 ^ fuel →
    parseDigits (Nat.toDigitsCore 10 fuel n []) = n := by
  intro fuel
  induction fuel with
  | zero => intro n h; interval_cases n; rfl
  | succ f ih =>
    intro n h
    simp only [Nat.toDigitsCore]
    by_cases hb : n / 10 = 0
    · rw [if_pos hb]
      simp [parseDigits, digitChar_val (n % 10) (by omega)]
      omega
    · rw [if_neg hb]
      rw [toDigitsCore_shift 10 f (n / 10) [Nat.digitChar (n % 10)]]
      have hdiv : n / 10 < 10 ^ f := by
        rw [Nat.div_lt_iff_lt_mul (by omega)]
        calc n < 10 ^ (f + 1) := h
        _ = 10 ^ f * 10 := by ring
      have hih := ih (n / 10) hdiv
      simp only [parseDigits] at *
      rw [List.foldl_append]
      simp [hih, digitChar_val (n % 10) (by omega)]
      omega

theorem parse_repr (n : Nat) : parseDigits (Nat.repr n).data = n := by
  have h1 : (Nat.repr n).data = Nat.toDigits 10 n := rfl
  rw [h1]
  exact parse_core (n + 1) n (by
    calc n < 10 ^ n := Nat.lt_pow_self (by omega) n
    _ ≤ 10 ^ (n + 1) := Nat.pow_le_pow_right (by omega) (by omega))

theorem repr_injective {m n : Nat} (h : Nat.repr m = Nat.repr n) : m = n := by
  have hm := parse_repr m
  rw [h, parse_repr] at hm
  omega

theorem repr_chars (n : Nat) {ch : Char} (h : ch ∈ (Nat.repr n).data) : ch ∈ digitList := by
  have h1 : (Nat.repr n).data = Nat.toDigits 10 n := rfl
  rw [h1] at h
  rcases mem_toDigitsCore (n + 1) n [] ch h with h | ⟨m, hm, rfl⟩
  · exact absurd h (List.not_mem_nil ch)
  · exact digitChar_mem m hm

theorem str_append_assoc (a b c : String) : a ++ b ++ c = a ++ (b ++ c) := by
  apply String.ext
  simp [String.data_append, List.append_assoc]

theorem append_sep_inj {sep : Char} :
    ∀ {a₁ a₂ b₁ b₂ : List Char}, sep ∉ a₁ → sep ∉ a₂ →
      a₁ ++ sep :: b₁ = a₂ ++ sep :: b₂ → a₁ = a₂ ∧ b₁ = b₂ := by
  intro a₁
  induction a₁ with
  | nil =>
    intro a₂ b₁ b₂ _ h2 h
    cases a₂ with
    | nil =>
      rw [List.nil_append, List.nil_append] at h
      injection h with _ h
      exact ⟨rfl, h⟩
    | cons x xs =>
      rw [List.nil_append, List.cons_append] at h
      injection h with hx _
      exact absurd (by rw [hx]; exact List.mem_cons_self x xs) h2
  | cons y ys ih =>
    intro a₂ b₁ b₂ h1 h2 h
    cases a₂ with
    | nil =>
      rw [List.nil_append, List.cons_append] at h
      injection h with hy _
      exact absurd (by rw [← hy]; exact List.mem_cons_self y ys) h1
    | cons x xs =>
      rw [List.cons_append, List.cons_append] at h
      injection h with hxy htail
      have h1x : sep ∉ ys := fun hm => h1 (List.mem_cons_of_mem _ hm)
      have h2x : sep ∉ xs := fun hm => h2 (List.mem_cons_of_mem _ hm)
      obtain ⟨he, hb⟩ := ih h1x h2x htail
      exact ⟨by rw [hxy, he], hb⟩

theorem parse_zeros (k : Nat) (l : List Char) :
    List.foldl (fun a ch => a * 10 + (ch.toNat - 48)) 0 (List.replicate k '0' ++ l)
      = List.foldl (fun a ch => a * 10 + (ch.toNat - 48)) 0 l := by
  induction k with
  | zero => rfl
  | succ j ih => simpa using ih

theorem parse_pad4 (n : Nat) : parseDigits (pad4 n).data = n := by
  have h : (pad4 n).data
      = List.replicate (4 - (Nat.repr n).data.length) '0' ++ (Nat.repr n).data := rfl
  rw [parseDigits, h, parse_zeros]
  exact parse_repr n

theorem pad4_injective {m n : Nat} (h : pad4 m = pad4 n) : m = n := by
  have hm := parse_pad4 m
  rw [h, parse_pad4] at hm
  omega

theorem pad4_chars (n : Nat) {ch : Char} (h : ch ∈ (pad4 n).data) : ch ∈ digitList := by
  have hd : (pad4 n).data
      = List.replicate (4 - (Nat.repr n).data.length) '0' ++ (Nat.repr n).data := rfl
  rw [hd] at h
  rcases List.mem_append.mp h with h | h
  · rw [(List.mem_replicate.mp h).2]
    decide
  · exact repr_chars n h

theorem repr_data_injective {m n : Nat} (h : (Nat.repr m).data = (Nat.repr n).data) : m = n :=
  repr_injective (String.ext h)

theorem sep_not_mem_repr (n : Nat) {d : Char} (hd : d ∉ digitList) : d ∉ (Nat.repr n).data :=
  fun hm => hd (repr_chars n hm)

theorem typeDecl_render_inj {T : Nat} {inl : String} {t₁ t₂ : Nat}
    (h : render (Chunk.typeDecl t₁ T inl) = render (Chunk.typeDecl t₂ T inl)) : t₁ = t₂ := by
  have hd := congrArg String.data h
  simp only [render, wl, gen_type, String.data_append, List.append_assoc,
    List.cons_append, List.nil_append, List.cons.injEq, true_and] at hd
  exact repr_data_injective
    (append_sep_inj (sep_not_mem_repr t₁ (by decide)) (sep_not_mem_repr t₂ (by decide)) hd).1

theorem fnDecl_render_inj {s : Strategy} {inl : String} {f₁ f₂ : Nat}
    (h : render (Chunk.fnDecl s f₁ inl) = render (Chunk.fnDecl s f₂ inl)) : f₁ = f₂ := by
  cases s with
  | static =>
    have hd := congrArg String.data h
    simp only [render, wl, fnHead, fnBody, String.data_append, List.append_assoc,
      List.cons_append, List.nil_append, List.cons.injEq, true_and] at hd
    have h2 := List.append_cancel_left hd
    simp only [List.cons.injEq, true_and] at h2
    exact repr_data_injective
      (append_sep_inj (sep_not_mem_repr f₁ (by decide)) (sep_not_mem_repr f₂ (by decide)) h2).1
  | dynamic =>
    have hd := congrArg String.data h
    simp only [render, wl, fnHead, fnBody, String.data_append, List.append_assoc,
      List.cons_append, List.nil_append, List.cons.injEq, true_and] at hd
    have h2 := List.append_cancel_left hd
    simp only [List.cons.injEq, true_and] at h2
    exact repr_data_injective
      (append_sep_inj (sep_not_mem_repr f₁ (by decide)) (sep_not_mem_repr f₂ (by decide)) h2).1

theorem hash_not_mem_typeDecl (t T : Nat) :
    '#' ∉ (render (Chunk.typeDecl t T (""))).data := by
  intro h
  simp [render, wl, gen_type, String.data_append, List.append_assoc] at h
  rcases h with h | h | h <;> exact absurd (repr_chars _ h) (by decide)

theorem hash_not_mem_fnDecl (s : Strategy) (f : Nat) :
    '#' ∉ (render (Chunk.fnDecl s f (""))).data := by
  intro h
  cases s with
  | static =>
    simp [render, wl, fnHead, fnBody, String.data_append, List.append_assoc] at h
    exact absurd (repr_chars _ h) (by decide)
  | dynamic =>
    simp [render, wl, fnHead, fnBody, String.data_append, List.append_assoc] at h
    exact absurd (repr_chars _ h) (by decide)

theorem directive_typeDecl (t T : Nat) (o : GenOpts) :
    (("#[inline(never)]").data <:+: (render (Chunk.typeDecl t T (inlineStr o))).data)
      ↔ o.no_inline = true := by
  obtain ⟨b⟩ := o
  cases b with
  | false =>
    have hi : inlineStr (GenOpts.mk false) = "" := rfl
    rw [hi]
    constructor
    · intro hinf
      obtain ⟨u, v, huv⟩ := hinf
      have hmem : '#' ∈ (u ++ ("#[inline(never)]").data) ++ v :=
        List.mem_append.mpr (Or.inl (List.mem_append.mpr (Or.inr (by decide))))
      rw [huv] at hmem
      exact absurd hmem (hash_not_mem_typeDecl t T)
    · intro hfalse
      exact absurd hfalse (by decide)
  | true =>
    have hi : inlineStr (GenOpts.mk true) = "#[inline(never)]" := rfl
    rw [hi]
    refine iff_of_true ?_ rfl
    refine ⟨("\nstruct T" ++ Nat.repr t ++ ("(" ++ gen_type t T
        ++ (");\nimpl Io for T" ++ Nat.repr t ++ " \x7b "))).data,
      (" fn do_io_m(&self) \x7b black_box(self); \x7d \x7d\n" ++ "\n").data, ?_⟩
    simp [render, wl, gen_type, String.data_append, List.append_assoc]

theorem directive_fnDecl (s : Strategy) (f : Nat) (o : GenOpts) :
    (("#[inline(never)]").data <:+: (render (Chunk.fnDecl s f (inlineStr o))).data)
      ↔ o.no_inline = true := by
  obtain ⟨b⟩ := o
  cases b with
  | false =>
    have hi : inlineStr (GenOpts.mk false) = "" := rfl
    rw [hi]
    constructor
    · intro hinf
      obtain ⟨u, v, huv⟩ := hinf
      have hmem : '#' ∈ (u ++ ("#[inline(never)]").data) ++ v :=
        List.mem_append.mpr (Or.inl (List.mem_append.mpr (Or.inr (by decide))))
      rw [huv] at hmem
      exact absurd hmem (hash_not_mem_fnDecl s f)
    · intro hfalse
      exact absurd hfalse (by decide)
  | true =>
    have hi : inlineStr (GenOpts.mk true) = "#[inline(never)]" := rfl
    rw [hi]
    refine iff_of_true ?_ rfl
    cases s with
    | static =>
      refine ⟨("\n").data,
        (("\nfn do_io_f" ++ Nat.repr f) ++ ("<T: Io>(v: &T)") ++ fnBody f ++ "\n").data, ?_⟩
      simp [render, wl, fnHead, fnBody, String.data_append, List.append_assoc]
    | dynamic =>
      refine ⟨("\n").data,
        (("\nfn do_io_f" ++ Nat.repr f) ++ ("(v: &dyn Io)") ++ fnBody f ++ "\n").data, ?_⟩
      simp [render, wl, fnHead, fnBody, String.data_append, List.append_assoc]

deriving instance DecidableEq for Except

theorem mem_rangeStepBy {lo hi s x : Nat} (hs : 0 < s) (hlh : lo ≤ hi) :
    x ∈ rangeStepBy lo hi s ↔ ∃ k, x = lo + k * s ∧ x ≤ hi := by
  unfold rangeStepBy
  rw [if_pos hlh, List.mem_range']
  constructor
  · rintro ⟨i, hi2, rfl⟩
    refine ⟨i, by ring, ?_⟩
    have h1 : i ≤ (hi - lo) / s := by omega
    have h2 : i * s ≤ hi - lo := (Nat.le_div_iff_mul_le hs).mp h1
    have h3 := (Nat.le_sub_iff_add_le hlh).mp h2
    have h5 : s * i = i * s := Nat.mul_comm s i
    omega
  · rintro ⟨k, rfl, hb⟩
    refine ⟨k, ?_, by ring⟩
    have h2 : k * s + lo ≤ hi := by omega
    have h3 : k * s ≤ hi - lo := (Nat.le_sub_iff_add_le hlh).mpr h2
    have h4 : k ≤ (hi - lo) / s := (Nat.le_div_iff_mul_le hs).mpr h3
    omega

/-- C1 (amended): in a sweep, an axis with step > 0 expands to the
values `1, 1 + step, 1 + 2·step, …` up to and including `bound + 1` —
it starts at 1 (not at the axis value) and its inclusive upper limit is
`bound + 1`, so it can contain a value exceeding the configured bound
by one. -/
theorem ranges_stepped_axis (m : MultiCaseConfig) :
    (0 < m.step_types →
      ∀ x, (x ∈ (ranges m).1 ↔ ∃ k, x = 1 + k * m.step_types ∧ x ≤ m.num_types + 1))
    ∧ (0 < m.step_fns →
      ∀ x, (x ∈ (ranges m).2.1 ↔ ∃ k, x = 1 + k * m.step_fns ∧ x ≤ m.num_fns + 1))
    ∧ (0 < m.step_calls →
      ∀ x, (x ∈ (ranges m).2.2 ↔ ∃ k, x = 1 + k * m.step_calls ∧ x ≤ m.num_calls + 1)) := by
  refine ⟨fun hs x => ?_, fun hs x => ?_, fun hs x => ?_⟩ <;>
    · simp only [ranges, if_pos hs]
      exact mem_rangeStepBy hs (by omega)

theorem ranges_stepped_axis_witness :
    0 < 2
    ∧ (3 ∈ (ranges (MultiCaseConfig.mk ("cases") 4 2 1 2 0 0)).1
        ↔ ∃ k, 3 = 1 + k * 2 ∧ 3 ≤ 4 + 1) :=
  ⟨by decide, (ranges_stepped_axis (MultiCaseConfig.mk ("cases") 4 2 1 2 0 0)).1 (by decide) 3⟩

/-- C1 counterexample: the claim says the type axis `(bound = 4,
step = 2)` (functions pinned at 2, calls pinned at 1) expands to
`(2,2,1), (4,2,1)`.  The code expands it to `1, 3, 5` — starting at 1
and including 5, which is beyond the bound 4 — so the sweep visits
`(1,2,1), (3,2,1), (5,2,1)`. -/
theorem ranges_example_cex :
    (ranges (MultiCaseConfig.mk ("cases") 4 2 1 2 0 0)).1 = [1, 3, 5]
    ∧ sweep_configs (MultiCaseConfig.mk ("cases") 4 2 1 2 0 0)
        = [CaseConfig.mk ("cases") 1 2 1, CaseConfig.mk ("cases") 3 2 1,
           CaseConfig.mk ("cases") 5 2 1]
    ∧ (ranges (MultiCaseConfig.mk ("cases") 4 2 1 2 0 0)).1 ≠ [2, 4] := by
  refine ⟨by decide, by decide, by decide⟩

/-- C2 (amended): a failure at one configuration point aborts the rest
of the sweep: `run_all_for` propagates the first error, attempting
exactly the points up to and including the failing one and none after
it. -/
theorem run_all_trace_aborts (pre post : List CaseConfig) (cfg : CaseConfig) (e : CaseError)
    (test : CaseConfig → Except CaseError Unit)
    (hpre : ∀ x ∈ pre, test x = Except.ok ()) (hcfg : test cfg = Except.error e) :
    runAllTrace test (pre ++ cfg :: post) = (pre ++ [cfg], some e) := by
  induction pre with
  | nil => simp [runAllTrace, hcfg]
  | cons y ys ih =>
    have hy : test y = Except.ok () := hpre y (List.mem_cons_self y ys)
    have hys : ∀ x ∈ ys, test x = Except.ok () := fun x hx => hpre x (List.mem_cons_of_mem y hx)
    simp [runAllTrace, hy, ih hys]

theorem run_all_trace_aborts_witness :
    (∀ x ∈ [CaseConfig.mk ("cases") 1 1 1], failsAtThree x = Except.ok ())
    ∧ runAllTrace failsAtThree
        ([CaseConfig.mk ("cases") 1 1 1]
          ++ CaseConfig.mk ("cases") 3 1 1 :: [CaseConfig.mk ("cases") 4 1 1])
      = ([CaseConfig.mk ("cases") 1 1 1] ++ [CaseConfig.mk ("cases") 3 1 1],
         some CaseError.buildError) :=
  ⟨by decide,
   run_all_trace_aborts [CaseConfig.mk ("cases") 1 1 1] [CaseConfig.mk ("cases") 4 1 1]
     (CaseConfig.mk ("cases") 3 1 1) CaseError.buildError failsAtThree
     (by decide) (by decide)⟩

/-- C2 counterexample: sweeping types 1..4 (step 1, functions pinned 2,
calls pinned 1) with a per-point operation that fails only at
`num_types = 3` stops after the third point: the point `(4,2,1)` is in
the expansion but is never attempted, and the sweep returns the
error. -/
theorem run_all_skips_cex :
    runAllTrace failsAtThree (sweep_configs (MultiCaseConfig.mk ("cases") 3 2 1 1 0 0))
      = ([CaseConfig.mk ("cases") 1 2 1, CaseConfig.mk ("cases") 2 2 1,
          CaseConfig.mk ("cases") 3 2 1], some CaseError.buildError)
    ∧ CaseConfig.mk ("cases") 4 2 1 ∈ sweep_configs (MultiCaseConfig.mk ("cases") 3 2 1 1 0 0)
    ∧ run_all_for (MultiCaseConfig.mk ("cases") 3 2 1 1 0 0) failsAtThree
        = Except.error CaseError.buildError := by
  refine ⟨by decide, by decide, by decide⟩

/-- C3 (amended): `gen_one_case` is not total on zero-axis
configurations: `verify_case` rejects any configuration with
`num_types = 0`, `num_fns = 0` or `num_calls = 0`, so generation fails
(the Rust `assert!` panics) instead of producing a degenerate
program. -/
theorem gen_one_case_zero_axis (c : CaseConfig) (o : GenOpts)
    (h : c.num_types = 0 ∨ c.num_fns = 0 ∨ c.num_calls = 0) :
    gen_one_case c o = Except.error CaseError.configError := by
  have hv : verify_case c = false := by
    simp [verify_case]
    omega
  simp [gen_one_case, hv]

theorem gen_one_case_zero_axis_witness :
    ((CaseConfig.mk ("cases") 0 2 2).num_types = 0
      ∨ (CaseConfig.mk ("cases") 0 2 2).num_fns = 0
      ∨ (CaseConfig.mk ("cases") 0 2 2).num_calls = 0)
    ∧ gen_one_case (CaseConfig.mk ("cases") 0 2 2) (GenOpts.mk true)
        = Except.error CaseError.configError :=
  ⟨Or.inl rfl, gen_one_case_zero_axis (CaseConfig.mk ("cases") 0 2 2) (GenOpts.mk true) (Or.inl rfl)⟩

/-- C3 counterexample: the claim says generation succeeds on every
zero-axis configuration; on `num_types = 0` the generate operation
fails the `verify_case` precondition instead of succeeding. -/
theorem gen_one_case_zero_cex :
    gen_one_case (CaseConfig.mk ("cases") 0 1 1) (GenOpts.mk false)
      = Except.error CaseError.configError := rfl

/-- C4: a zero-axis configuration passed to the build or run operation
fails with the configuration-precondition error before any child
process (compiler, symbol lister, or benchmark binary) is spawned: the
spawn trace is empty. -/
theorem zero_axis_no_spawn (c : CaseConfig) (opts : CompileOpts) (world : Proc → Bool)
    (h : c.num_types = 0 ∨ c.num_fns = 0 ∨ c.num_calls = 0) :
    compile_one_case c opts world = ([], Except.error CaseError.configError)
    ∧ run_one_case c world = ([], Except.error CaseError.configError) := by
  have hv : verify_case c = false := by
    simp [verify_case]
    omega
  constructor <;> simp [compile_one_case, run_one_case, hv]

theorem zero_axis_no_spawn_witness :
    ((CaseConfig.mk ("cases") 0 3 3).num_types = 0
      ∨ (CaseConfig.mk ("cases") 0 3 3).num_fns = 0
      ∨ (CaseConfig.mk ("cases") 0 3 3).num_calls = 0)
    ∧ compile_one_case (CaseConfig.mk ("cases") 0 3 3) (CompileOpts.mk true 2) (fun _ => true)
        = ([], Except.error CaseError.configError)
    ∧ run_one_case (CaseConfig.mk ("cases") 0 3 3) (fun _ => true)
        = ([], Except.error CaseError.configError) :=
  ⟨Or.inl rfl,
   (zero_axis_no_spawn (CaseConfig.mk ("cases") 0 3 3) (CompileOpts.mk true 2)
      (fun _ => true) (Or.inl rfl)).1,
   (zero_axis_no_spawn (CaseConfig.mk ("cases") 0 3 3) (CompileOpts.mk true 2)
      (fun _ => true) (Or.inl rfl)).2⟩

/-- C5: source synthesis is deterministic — the emitted text is a pure
function of the three axes, the toggles and the strategy, so two
generations with identical inputs give byte-identical text (the output
directory, the only other input, does not influence the text). -/
theorem gen_case_deterministic (c₁ c₂ : CaseConfig) (s : Strategy) (o : GenOpts)
    (h₁ : c₁.num_types = c₂.num_types) (h₂ : c₁.num_fns = c₂.num_fns)
    (h₃ : c₁.num_calls = c₂.num_calls) :
    gen_case c₁ s o = gen_case c₂ s o := by
  obtain ⟨d₁, t₁, f₁, k₁⟩ := c₁
  obtain ⟨d₂, t₂, f₂, k₂⟩ := c₂
  have e₁ : t₁ = t₂ := h₁
  have e₂ : f₁ = f₂ := h₂
  have e₃ : k₁ = k₂ := h₃
  subst e₁
  subst e₂
  subst e₃
  rfl

theorem gen_case_deterministic_witness :
    (CaseConfig.mk ("cases") 1 1 1).num_types = (CaseConfig.mk ("other") 1 1 1).num_types
    ∧ gen_case (CaseConfig.mk ("cases") 1 1 1) Strategy.static (GenOpts.mk false)
        = gen_case (CaseConfig.mk ("other") 1 1 1) Strategy.static (GenOpts.mk false) :=
  ⟨rfl, gen_case_deterministic (CaseConfig.mk ("cases") 1 1 1) (CaseConfig.mk ("other") 1 1 1)
    Strategy.static (GenOpts.mk false) rfl rfl rfl⟩

theorem flatMap_const_nil {α β : Type} (l : List α) :
    (l.flatMap fun _ => ([] : List β)) = [] := by
  induction l with
  | nil => rfl
  | cons x xs ih => simp [List.flatMap_cons, ih]

theorem filterMap_none_fun {α β : Type} (l : List α) :
    (l.filterMap fun _ => (none : Option β)) = [] := by
  induction l with
  | nil => rfl
  | cons x xs ih => simp [List.filterMap_cons, ih]

/-- C6: for positive `num_types = T` and `num_fns = F`, the generated
source contains exactly the `T` type declarations `struct T0 … struct
T(T-1)` — each carrying its `impl Io` — in index order, and exactly the
`F` wrapper declarations `do_io_f0 … do_io_f(F-1)` in index order; the
rendered texts are pairwise distinct (distinguished by the embedded
index). -/
theorem gen_case_decl_counts (c : CaseConfig) (s : Strategy) (o : GenOpts)
    (_hT : 0 < c.num_types) (_hF : 0 < c.num_fns) :
    ((gen_case_chunks c s o).filter Chunk.isTypeDecl
        = (List.range c.num_types).map (fun t => Chunk.typeDecl t c.num_types (inlineStr o)))
    ∧ ((gen_case_chunks c s o).filter Chunk.isTypeDecl).length = c.num_types
    ∧ ((gen_case_chunks c s o).filter Chunk.isFnDecl
        = (List.range c.num_fns).map (fun f => Chunk.fnDecl s f (inlineStr o)))
    ∧ ((gen_case_chunks c s o).filter Chunk.isFnDecl).length = c.num_fns
    ∧ (((gen_case_chunks c s o).filter Chunk.isTypeDecl).map render).Nodup
    ∧ (((gen_case_chunks c s o).filter Chunk.isFnDecl).map render).Nodup := by
  have hfT : (gen_case_chunks c s o).filter Chunk.isTypeDecl
      = (List.range c.num_types).map (fun t => Chunk.typeDecl t c.num_types (inlineStr o)) := by
    simp [gen_case_chunks, List.filter_append, List.filter_map, List.filter_flatMap,
      Chunk.isTypeDecl, Function.comp_def, flatMap_const_nil]
  have hfF : (gen_case_chunks c s o).filter Chunk.isFnDecl
      = (List.range c.num_fns).map (fun f => Chunk.fnDecl s f (inlineStr o)) := by
    simp [gen_case_chunks, List.filter_append, List.filter_map, List.filter_flatMap,
      Chunk.isFnDecl, Function.comp_def, flatMap_const_nil]
  refine ⟨hfT, ?_, hfF, ?_, ?_, ?_⟩
  · rw [hfT, List.length_map, List.length_range]
  · rw [hfF, List.length_map, List.length_range]
  · rw [hfT, List.map_map]
    exact List.Nodup.map (fun a b hab => typeDecl_render_inj hab) (List.nodup_range _)
  · rw [hfF, List.map_map]
    exact List.Nodup.map (fun a b hab => fnDecl_render_inj hab) (List.nodup_range _)

/-- C7: a generated capability method (type declaration chunk) or
wrapper function carries the `#[inline(never)]` directive exactly when
the `noInline` toggle is set. -/
theorem gen_case_inline_directive (c : CaseConfig) (s : Strategy) (o : GenOpts) (ch : Chunk)
    (hmem : ch ∈ gen_case_chunks c s o)
    (hkind : ch.isTypeDecl = true ∨ ch.isFnDecl = true) :
    ((("#[inline(never)]").data <:+: (render ch).data) ↔ o.no_inline = true) := by
  simp only [gen_case_chunks, List.mem_append, List.mem_cons, List.not_mem_nil, or_false,
    List.mem_map, List.mem_flatMap, List.mem_range] at hmem
  rcases hmem with
    (((((((h | h | h) | ⟨t, ht, rfl⟩) | ⟨f, hf, rfl⟩) | (h | h)) | ⟨t, ht, rfl⟩) | (h | h))
      | ⟨f, hf, ⟨t, ht, k, hk, rfl⟩ | h⟩) | (h | h)
  · subst h; simp [Chunk.isTypeDecl, Chunk.isFnDecl] at hkind
  · subst h; simp [Chunk.isTypeDecl, Chunk.isFnDecl] at hkind
  · subst h; simp [Chunk.isTypeDecl, Chunk.isFnDecl] at hkind
  · exact directive_typeDecl t c.num_types o
  · exact directive_fnDecl s f o
  · subst h; simp [Chunk.isTypeDecl, Chunk.isFnDecl] at hkind
  · subst h; simp [Chunk.isTypeDecl, Chunk.isFnDecl] at hkind
  · simp [Chunk.isTypeDecl, Chunk.isFnDecl] at hkind
  · subst h; simp [Chunk.isTypeDecl, Chunk.isFnDecl] at hkind
  · subst h; simp [Chunk.isTypeDecl, Chunk.isFnDecl] at hkind
  · simp [Chunk.isTypeDecl, Chunk.isFnDecl] at hkind
  · subst h; simp [Chunk.isTypeDecl, Chunk.isFnDecl] at hkind
  · subst h; simp [Chunk.isTypeDecl, Chunk.isFnDecl] at hkind
  · subst h; simp [Chunk.isTypeDecl, Chunk.isFnDecl] at hkind

/-- C8 (amended): the timing-loop call sequence emitted by the
generator is always function-major-then-type-major, each (function,
type) pair repeated `num_calls` times; the generator has no
`predictable` toggle, so no option produces a type-major order. -/
theorem gen_case_call_order (c : CaseConfig) (s : Strategy) (o : GenOpts) :
    (gen_case_chunks c s o).filterMap Chunk.callIdx = call_seq c := by
  simp [gen_case_chunks, call_seq, List.filterMap_append, List.filterMap_flatMap,
    List.filterMap_map, Chunk.callIdx, Function.comp_def, filterMap_none_fun]

/-- C8 counterexample: for `numTypes = 2, numFunctions = 2,
numCalls = 1` the emitted call sequence is
`(f0,t0), (f0,t1), (f1,t0), (f1,t1)` and is not the type-major
sequence `(t0,f0), (t0,f1), (t1,f0), (t1,f1)` for any value of the
generation toggles or either strategy — there is no `predictable`
toggle in the code, so the claimed predictable ordering is never
produced. -/
theorem gen_case_call_order_cex :
    ((gen_case_chunks (CaseConfig.mk ("cases") 2 2 1) Strategy.static (GenOpts.mk false)).filterMap
        Chunk.callIdx = [(0, 0), (0, 1), (1, 0), (1, 1)])
    ∧ ((gen_case_chunks (CaseConfig.mk ("cases") 2 2 1) Strategy.static (GenOpts.mk false)).filterMap
        Chunk.callIdx ≠ [(0, 0), (1, 0), (0, 1), (1, 1)])
    ∧ ((gen_case_chunks (CaseConfig.mk ("cases") 2 2 1) Strategy.dynamic (GenOpts.mk false)).filterMap
        Chunk.callIdx ≠ [(0, 0), (1, 0), (0, 1), (1, 1)])
    ∧ ((gen_case_chunks (CaseConfig.mk ("cases") 2 2 1) Strategy.static (GenOpts.mk true)).filterMap
        Chunk.callIdx ≠ [(0, 0), (1, 0), (0, 1), (1, 1)])
    ∧ ((gen_case_chunks (CaseConfig.mk ("cases") 2 2 1) Strategy.dynamic (GenOpts.mk true)).filterMap
        Chunk.callIdx ≠ [(0, 0), (1, 0), (0, 1), (1, 1)]) := by
  refine ⟨by decide, by decide, by decide, by decide, by decide⟩

theorem gen_case_decl_counts_witness :
    0 < (CaseConfig.mk ("cases") 2 2 1).num_types
    ∧ ((gen_case_chunks (CaseConfig.mk ("cases") 2 2 1) Strategy.static (GenOpts.mk false)).filter
        Chunk.isTypeDecl).length = (CaseConfig.mk ("cases") 2 2 1).num_types
    ∧ ((gen_case_chunks (CaseConfig.mk ("cases") 2 2 1) Strategy.static (GenOpts.mk false)).filter
        Chunk.isFnDecl).length = (CaseConfig.mk ("cases") 2 2 1).num_fns :=
  ⟨by decide,
   (gen_case_decl_counts (CaseConfig.mk ("cases") 2 2 1) Strategy.static (GenOpts.mk false)
      (by decide) (by decide)).2.1,
   (gen_case_decl_counts (CaseConfig.mk ("cases") 2 2 1) Strategy.static (GenOpts.mk false)
      (by decide) (by decide)).2.2.2.1⟩

theorem gen_case_inline_directive_witness :
    (Chunk.typeDecl 0 1 (inlineStr (GenOpts.mk true))
        ∈ gen_case_chunks (CaseConfig.mk ("cases") 1 1 1) Strategy.static (GenOpts.mk true))
    ∧ ((("#[inline(never)]").data
          <:+: (render (Chunk.typeDecl 0 1 (inlineStr (GenOpts.mk true)))).data)
        ↔ (GenOpts.mk true).no_inline = true) :=
  ⟨by decide,
   gen_case_inline_directive (CaseConfig.mk ("cases") 1 1 1) Strategy.static (GenOpts.mk true)
     (Chunk.typeDecl 0 1 (inlineStr (GenOpts.mk true))) (by decide) (Or.inl (by decide))⟩

/-- C9: for a fixed configuration and toggles, the static and dynamic
chunk sequences share the same preamble, type-declaration section,
instance-construction section and timing-loop call sequence (the lists
`pre` and `post` are strategy independent), and the wrapper-function
chunks differ only in the signature fragment: `<T: Io>(v: &T)` versus
`(v: &dyn Io)`, with identical text before and after it. -/
theorem gen_case_strategy_symmetry (c : CaseConfig) (o : GenOpts) :
    ∃ pre post : List Chunk,
      (gen_case_chunks c Strategy.static o
        = pre ++ ((List.range c.num_fns).map
            (fun f => Chunk.fnDecl Strategy.static f (inlineStr o)) ++ post))
      ∧ (gen_case_chunks c Strategy.dynamic o
        = pre ++ ((List.range c.num_fns).map
            (fun f => Chunk.fnDecl Strategy.dynamic f (inlineStr o)) ++ post))
      ∧ (∀ f : Nat, ∀ inl : String,
          render (Chunk.fnDecl Strategy.static f inl)
            = fnHead inl f ++ ("<T: Io>(v: &T)") ++ (fnBody f ++ ("\n"))
          ∧ render (Chunk.fnDecl Strategy.dynamic f inl)
            = fnHead inl f ++ ("(v: &dyn Io)") ++ (fnBody f ++ ("\n"))) := by
  refine ⟨[Chunk.comment c.num_types c.num_calls, Chunk.blank, Chunk.header]
      ++ (List.range c.num_types).map (fun t => Chunk.typeDecl t c.num_types (inlineStr o)),
    [Chunk.blank, Chunk.mainOpen]
      ++ ((List.range c.num_types).map (fun t => Chunk.staticDecl t c.num_types)
      ++ ([Chunk.blank, Chunk.loopOpen]
      ++ ((List.range c.num_fns).flatMap (fun f =>
           (List.range c.num_types).flatMap (fun t =>
             (List.range c.num_calls).map (fun _ => Chunk.callLine f t)) ++ [Chunk.blank])
      ++ [Chunk.loopClose, Chunk.mainClose]))), ?_, ?_, ?_⟩
  · simp [gen_case_chunks, List.append_assoc]
  · simp [gen_case_chunks, List.append_assoc]
  · intro f inl
    constructor
    · show (fnHead inl f ++ ("<T: Io>(v: &T)") ++ fnBody f) ++ "\n"
        = fnHead inl f ++ ("<T: Io>(v: &T)") ++ (fnBody f ++ ("\n"))
      exact str_append_assoc _ _ _
    · show (fnHead inl f ++ ("(v: &dyn Io)") ++ fnBody f) ++ "\n"
        = fnHead inl f ++ ("(v: &dyn Io)") ++ (fnBody f ++ ("\n"))
      exact str_append_assoc _ _ _

/-- Selects the static or dynamic artifact path computed by
`gen_paths`. -/
def pathOf : Strategy → CaseConfig → String → String
  | Strategy.static, c, ext => (gen_paths c ext).1
  | Strategy.dynamic, c, ext => (gen_paths c ext).2

/-- C10: artifact path computation is injective — with a common output
directory and extension, two (strategy, configuration) pairs that
differ in the strategy or in any of the three axes receive distinct
paths, so in particular the static and dynamic artifacts of one
configuration never collide. -/
theorem gen_paths_injective (ext : String) (c₁ c₂ : CaseConfig) (s₁ s₂ : Strategy)
    (hdir : c₁.outdir = c₂.outdir)
    (hne : s₁ ≠ s₂ ∨ c₁.num_types ≠ c₂.num_types ∨ c₁.num_fns ≠ c₂.num_fns
      ∨ c₁.num_calls ≠ c₂.num_calls) :
    pathOf s₁ c₁ ext ≠ pathOf s₂ c₂ ext := by
  intro heq
  have hd := congrArg String.data heq
  cases s₁ <;> cases s₂
  case static.static =>
    simp only [pathOf, gen_paths] at hd
    rw [hdir] at hd
    simp only [String.data_append, List.append_assoc, List.cons_append, List.nil_append] at hd
    have h2 := List.append_cancel_left hd
    simp only [List.cons.injEq, true_and] at h2
    obtain ⟨ht, h3⟩ := append_sep_inj (fun hm => absurd (pad4_chars _ hm) (by decide))
      (fun hm => absurd (pad4_chars _ hm) (by decide)) h2
    obtain ⟨hf, h4⟩ := append_sep_inj (fun hm => absurd (pad4_chars _ hm) (by decide))
      (fun hm => absurd (pad4_chars _ hm) (by decide)) h3
    obtain ⟨hk, _⟩ := append_sep_inj (fun hm => absurd (pad4_chars _ hm) (by decide))
      (fun hm => absurd (pad4_chars _ hm) (by decide)) h4
    rcases hne with hne | hne | hne | hne
    · exact hne rfl
    · exact hne (pad4_injective (String.ext ht))
    · exact hne (pad4_injective (String.ext hf))
    · exact hne (pad4_injective (String.ext hk))
  case static.dynamic =>
    simp only [pathOf, gen_paths] at hd
    rw [hdir] at hd
    simp only [String.data_append, List.append_assoc, List.cons_append, List.nil_append] at hd
    have h2 := List.append_cancel_left hd
    simp at h2
  case dynamic.static =>
    simp only [pathOf, gen_paths] at hd
    rw [hdir] at hd
    simp only [String.data_append, List.append_assoc, List.cons_append, List.nil_append] at hd
    have h2 := List.append_cancel_left hd
    simp at h2
  case dynamic.dynamic =>
    simp only [pathOf, gen_paths] at hd
    rw [hdir] at hd
    simp only [String.data_append, List.append_assoc, List.cons_append, List.nil_append] at hd
    have h2 := List.append_cancel_left hd
    simp only [List.cons.injEq, true_and] at h2
    obtain ⟨ht, h3⟩ := append_sep_inj (fun hm => absurd (pad4_chars _ hm) (by decide))
      (fun hm => absurd (pad4_chars _ hm) (by decide)) h2
    obtain ⟨hf, h4⟩ := append_sep_inj (fun hm => absurd (pad4_chars _ hm) (by decide))
      (fun hm => absurd (pad4_chars _ hm) (by decide)) h3
    obtain ⟨hk, _⟩ := append_sep_inj (fun hm => absurd (pad4_chars _ hm) (by decide))
      (fun hm => absurd (pad4_chars _ hm) (by decide)) h4
    rcases hne with hne | hne | hne | hne
    · exact hne rfl
    · exact hne (pad4_injective (String.ext ht))
    · exact hne (pad4_injective (String.ext hf))
    · exact hne (pad4_injective (String.ext hk))

theorem gen_paths_injective_witness :
    (CaseConfig.mk ("cases") 1 2 3).outdir = (CaseConfig.mk ("cases") 1 2 3).outdir
    ∧ pathOf Strategy.static (CaseConfig.mk ("cases") 1 2 3) ("rs")
        ≠ pathOf Strategy.dynamic (CaseConfig.mk ("cases") 1 2 3) ("rs") :=
  ⟨rfl,
   gen_paths_injective ("rs") (CaseConfig.mk ("cases") 1 2 3) (CaseConfig.mk ("cases") 1 2 3)
     Strategy.static Strategy.dynamic rfl (Or.inl (by decide))⟩
